import Mathlib

/-!
Verification development for the Steam password-rotation utility.

The definitions below are a shallow embedding of the Python sources:

* `src/steam_client.py` — `SteamAuthenticator.generate_auth_code`,
  `SteamWebClient.login`, `SteamWebClient._extract_session_data`,
  `SteamPasswordChanger.change_password`;
* `src/scheduler.py` — `PasswordChangeRecord`, `PasswordHistory`
  (`load_history`, `save_history`, `add_record`, `get_last_change`,
  `get_failed_attempts`) and `SteamPasswordScheduler`
  (`change_password_job`, `save_config`, `force_password_change`).

Machine integers are modelled as `Nat` with explicit reduction modulo
`2 ^ 32` (`w32`) where the Python code relies on fixed-width behaviour;
byte strings are `List Nat` with entries below 256; fallible operations
return `Option` or `Except`.  The cryptographic primitives used by the
code (`hashlib.sha1`, `hmac.new`) are implemented in full so that the
one-time-code derivation can be evaluated on concrete inputs.
-/

/-! ## SHA-1 (model of `hashlib.sha1`) -/

/-- Reduction of a `Nat` to a 32-bit machine word, the wrap-around that
`hashlib` arithmetic performs implicitly. -/
def w32 (n : Nat) : Nat := n % 4294967296

/-- Left rotation of a 32-bit word by `n` bits (assumes `x < 2 ^ 32`). -/
def rotl (n x : Nat) : Nat := ((x <<< n) % 4294967296) ||| (x >>> (32 - n))

/-- Big-endian 4-byte serialisation of a 32-bit word. -/
def be4 (w : Nat) : List Nat :=
  [(w >>> 24) &&& 255, (w >>> 16) &&& 255, (w >>> 8) &&& 255, w &&& 255]

/-- Big-endian 8-byte serialisation of a 64-bit word; models
`struct.pack(">Q", n)`, which requires `n < 2 ^ 64` (we model the
in-range behaviour). -/
def be8 (n : Nat) : List Nat :=
  [(n >>> 56) &&& 255, (n >>> 48) &&& 255, (n >>> 40) &&& 255, (n >>> 32) &&& 255,
   (n >>> 24) &&& 255, (n >>> 16) &&& 255, (n >>> 8) &&& 255, n &&& 255]

/-- Big-endian grouping of bytes into 32-bit words (message block parsing). -/
def bytesToWords : List Nat → List Nat
  | b0 :: b1 :: b2 :: b3 :: rest =>
      ((b0 <<< 24) ||| (b1 <<< 16) ||| (b2 <<< 8) ||| b3) :: bytesToWords rest
  | _ => []

/-- Message-schedule extension: the accumulator holds the words produced so
far in reverse order, so the taps `w[i-3]`, `w[i-8]`, `w[i-14]`, `w[i-16]`
are positions 2, 7, 13, 15 from the head. -/
def schedGo : Nat → List Nat → List Nat
  | 0, acc => acc.reverse
  | k + 1, acc =>
      let w := rotl 1 ((acc.getD 2 0) ^^^ (acc.getD 7 0) ^^^ (acc.getD 13 0) ^^^ (acc.getD 15 0))
      schedGo k (w :: acc)

/-- Expansion of the 16 block words to the 80 schedule words. -/
def schedule (ws : List Nat) : List Nat := schedGo 64 ws.reverse

/-- Round function selector `f_t` of SHA-1. -/
def sha1f (t b c d : Nat) : Nat :=
  if t < 20 then (b &&& c) ||| ((b ^^^ 4294967295) &&& d)
  else if t < 40 then b ^^^ c ^^^ d
  else if t < 60 then (b &&& c) ||| (b &&& d) ||| (c &&& d)
  else b ^^^ c ^^^ d

/-- Round constant `K_t` of SHA-1. -/
def sha1k (t : Nat) : Nat :=
  if t < 20 then 0x5A827999
  else if t < 40 then 0x6ED9EBA1
  else if t < 60 then 0x8F1BBCDC
  else 0xCA62C1D6

/-- One pass over the 80 schedule words, updating the five working
registers. -/
def roundsGo : List Nat → Nat → Nat × Nat × Nat × Nat × Nat → Nat × Nat × Nat × Nat × Nat
  | [], _, st => st
  | w :: rest, t, (a, b, c, d, e) =>
      roundsGo rest (t + 1) (w32 (rotl 5 a + sha1f t b c d + e + sha1k t + w), a, rotl 30 b, c, d)

/-- Compression of one 64-byte block into the chaining state. -/
def compress (h : Nat × Nat × Nat × Nat × Nat) (block : List Nat) : Nat × Nat × Nat × Nat × Nat :=
  match h with
  | (h0, h1, h2, h3, h4) =>
    match roundsGo (schedule (bytesToWords block)) 0 (h0, h1, h2, h3, h4) with
    | (a, b, c, d, e) => (w32 (h0 + a), w32 (h1 + b), w32 (h2 + c), w32 (h3 + d), w32 (h4 + e))

/-- Iteration over the 64-byte blocks of the padded message; the fuel is
structural and any value at least the number of blocks is enough. -/
def processBlocksGo : Nat → Nat × Nat × Nat × Nat × Nat → List Nat → Nat × Nat × Nat × Nat × Nat
  | 0, h, _ => h
  | fuel + 1, h, bytes =>
      match bytes with
      | [] => h
      | b :: rest => processBlocksGo fuel (compress h ((b :: rest).take 64)) ((b :: rest).drop 64)

/-- Initial SHA-1 chaining values. -/
def sha1init : Nat × Nat × Nat × Nat × Nat :=
  (0x67452301, 0xEFCDAB89, 0x98BADCFE, 0x10325476, 0xC3D2E1F0)

/-- Merkle–Damgård padding: a `0x80` byte, zeroes, then the 64-bit
big-endian bit length, to a multiple of 64 bytes. -/
def sha1pad (msg : List Nat) : List Nat :=
  let l := msg.length
  let k := (120 - ((l + 1) % 64)) % 64
  msg ++ [128] ++ List.replicate k 0 ++ be8 (8 * l)

/-- Serialisation of the final chaining state as the 20-byte digest. -/
def sha1digest (h : Nat × Nat × Nat × Nat × Nat) : List Nat :=
  be4 h.1 ++ be4 h.2.1 ++ be4 h.2.2.1 ++ be4 h.2.2.2.1 ++ be4 h.2.2.2.2

/-- SHA-1 of a byte string, as computed by `hashlib.sha1(...).digest()`. -/
def sha1 (msg : List Nat) : List Nat :=
  let padded := sha1pad msg
  sha1digest (processBlocksGo padded.length sha1init padded)

/-- HMAC-SHA1 (`hmac.new(key, msg, hashlib.sha1).digest()`), block size 64:
an over-long key is first hashed, the key is zero-padded to the block size,
and the digest is `H((K ⊕ opad) ∥ H((K ⊕ ipad) ∥ msg))`. -/
def hmacSha1 (key msg : List Nat) : List Nat :=
  let k0 := if 64 < key.length then sha1 key else key
  let kp := k0 ++ List.replicate (64 - k0.length) 0
  sha1 ((kp.map (· ^^^ 0x5c)) ++ sha1 ((kp.map (· ^^^ 0x36)) ++ msg))

/-! ## Base64 decoding (model of `base64.b64decode` on the shared secret) -/

/-- Value of one character of the standard base64 alphabet. -/
def b64CharVal (c : Char) : Option Nat :=
  if 65 ≤ c.toNat ∧ c.toNat ≤ 90 then some (c.toNat - 65)
  else if 97 ≤ c.toNat ∧ c.toNat ≤ 122 then some (c.toNat - 97 + 26)
  else if 48 ≤ c.toNat ∧ c.toNat ≤ 57 then some (c.toNat - 48 + 52)
  else if c = '+' then some 62
  else if c = '/' then some 63
  else none

/-- Decoding of base64 quads: a trailing quad may carry one or two padding
characters; anything else (in particular a dangling partial quad or
misplaced padding) is a decode failure, which `base64.b64decode` reports by
raising `binascii.Error`. -/
def b64Quads : List Char → Option (List Nat)
  | [] => some []
  | [a, b, '=', '='] =>
      match b64CharVal a, b64CharVal b with
      | some va, some vb => some [(va <<< 2) ||| (vb >>> 4)]
      | _, _ => none
  | [a, b, c, '='] =>
      match b64CharVal a, b64CharVal b, b64CharVal c with
      | some va, some vb, some vc =>
          some [(va <<< 2) ||| (vb >>> 4), ((vb % 16) <<< 4) ||| (vc >>> 2)]
      | _, _, _ => none
  | a :: b :: c :: d :: rest =>
      match b64CharVal a, b64CharVal b, b64CharVal c, b64CharVal d with
      | some va, some vb, some vc, some vd =>
          match b64Quads rest with
          | some tail =>
              some ([(va <<< 2) ||| (vb >>> 4), ((vb % 16) <<< 4) ||| (vc >>> 2),
                     ((vc % 4) <<< 6) ||| vd] ++ tail)
          | none => none
      | _, _, _, _ => none
  | _ => none

/-- Decode of a base64 text; characters outside the alphabet are discarded
before the quad grouping, as `binascii.a2b_base64` does. -/
def b64decode (s : String) : Option (List Nat) :=
  b64Quads (s.toList.filter (fun c => (b64CharVal c).isSome || c = '='))

/-! ## The one-time-code generator (`SteamAuthenticator.generate_auth_code`) -/

/-- Decimal digit characters of `n`, most significant first; the fuel
`n + 1` always suffices because the value shrinks at every step. -/
def decDigitsGo : Nat → Nat → List Char
  | 0, _ => []
  | fuel + 1, n =>
      if n < 10 then [Char.ofNat (48 + n)]
      else decDigitsGo fuel (n / 10) ++ [Char.ofNat (48 + n % 10)]

/-- Decimal representation of `n` as a list of digit characters. -/
def decDigits (n : Nat) : List Char := decDigitsGo (n + 1) n

/-- Python format `f"{n:05d}"` for a non-negative `n`: the decimal form,
left-padded with zeroes to a width of at least 5. -/
def pad5 (n : Nat) : String :=
  String.mk (List.replicate (5 - (decDigits n).length) '0' ++ decDigits n)

/-- Big-endian value of a byte string, as `struct.unpack(">I", bs)[0]` for
a 4-byte `bs`. -/
def unpack_be4 (bs : List Nat) : Nat := bs.foldl (fun acc b => acc * 256 + b) 0

/-- Core of `SteamAuthenticator.generate_auth_code` on the already decoded
secret bytes:
the 30-second counter is packed big-endian, HMAC-SHA1 is taken, the
4 bytes at the dynamic offset (last digest byte masked to 4 bits) are read
big-endian, the sign bit is masked off, the value is reduced modulo
1 000 000 and formatted with `f"{...:05d}"`. -/
def generate_core (secret_bytes : List Nat) (timestamp : Nat) : String :=
  let time_buffer := timestamp / 30
  let time_bytes := be8 time_buffer
  let hmac_digest := hmacSha1 secret_bytes time_bytes
  let offset := (hmac_digest.getLast?.getD 0) &&& 0x0F
  let code_bytes := (hmac_digest.drop offset).take 4
  let code_int := unpack_be4 code_bytes &&& 0x7FFFFFFF
  let auth_code := code_int % 1000000
  pad5 auth_code

/-- Full `SteamAuthenticator.generate_auth_code`: the shared secret is
base64-decoded first and a decode failure raises
`ValueError("Неверный формат shared_secret: ...")`, modelled as `Except.error`. -/
def generate_auth_code (shared_secret : String) (timestamp : Nat) : Except String String :=
  match b64decode shared_secret with
  | none => Except.error "Неверный формат shared_secret"
  | some secret_bytes => Except.ok (generate_core secret_bytes timestamp)

/-! ## Spec-side derivation (written from the specified algorithm steps,
for the refinement check of the generator) -/

/-- Modelled from the spec: the 8-byte big-endian counter encoding of
`floor(unixtime/30)`, written with division and remainder. -/
def spec_counter_bytes (t : Nat) : List Nat :=
  let c := t / 30
  [c / 72057594037927936 % 256, c / 281474976710656 % 256, c / 1099511627776 % 256,
   c / 4294967296 % 256, c / 16777216 % 256, c / 65536 % 256, c / 256 % 256, c % 256]

/-- Modelled from the spec: dynamic truncation of the 20-byte digest —
offset from the last byte, the 4 bytes at the offset read big-endian, the
sign bit masked off, the result reduced modulo 1 000 000. -/
def spec_truncate (digest : List Nat) : Nat :=
  let offset := digest.getD 19 0 % 16
  (digest.getD offset 0 * 16777216 + digest.getD (offset + 1) 0 * 65536 +
     digest.getD (offset + 2) 0 * 256 + digest.getD (offset + 3) 0) % 2147483648 % 1000000

/-- Modelled from the spec: the full code derivation pipeline over decoded
secret bytes, zero-padded to at least 5 digits. -/
def spec_code (secret : List Nat) (t : Nat) : String :=
  pad5 (spec_truncate (hmacSha1 secret (spec_counter_bytes t)))

/-! ## Rotation history (`PasswordChangeRecord`, `PasswordHistory`) -/

/-- Record of one rotation attempt (`PasswordChangeRecord` dataclass). -/
structure PasswordChangeRecord where
  timestamp : String
  old_password_hash : String
  new_password_hash : String
  success : Bool
  error_message : Option String
deriving DecidableEq, Repr

/-- Model of `PasswordHistory.load_history`: the file may be missing (the
initial empty list is kept), the read may raise, or the parse into records
may raise; every failure is logged and leaves an empty history. -/
def load_history (fileExists : Bool) (readResult : Except String String)
    (parseRecords : String → Except String (List PasswordChangeRecord)) :
    List PasswordChangeRecord :=
  if fileExists then
    match readResult with
    | Except.error _ => []
    | Except.ok content =>
      match parseRecords content with
      | Except.error _ => []
      | Except.ok records => records
  else []

/-- Model of the Python slice `records[-max_records:]` applied when the
list is over length: for a positive bound it keeps the trailing
`max_records` elements, but `-0` is `0`, so a zero bound keeps the whole
list. -/
def trim_records (max_records : Nat) (records : List PasswordChangeRecord) :
    List PasswordChangeRecord :=
  if max_records < records.length then
    if max_records = 0 then records
    else records.drop (records.length - max_records)
  else records

/-- `PasswordHistory.save_history`: the records that are persisted (the
trim is applied before the file write). -/
def save_history (max_records : Nat) (records : List PasswordChangeRecord) :
    List PasswordChangeRecord :=
  trim_records max_records records

/-- `PasswordHistory.add_record`: append, then persist with retention. -/
def add_record (max_records : Nat) (records : List PasswordChangeRecord)
    (record : PasswordChangeRecord) : List PasswordChangeRecord :=
  save_history max_records (records ++ [record])

/-- Trailing `n` elements of a list. -/
def takeLast {α : Type} (l : List α) (n : Nat) : List α := l.drop (l.length - n)

/-- `PasswordHistory.get_last_change`: the most recent successful record. -/
def get_last_change (records : List PasswordChangeRecord) : Option PasswordChangeRecord :=
  records.reverse.find? (fun r => r.success)

/-- `PasswordHistory.get_failed_attempts`: failures inside the trailing
window of `since_hours` hours; `parse` models `datetime.fromisoformat`
(a `ValueError` on a malformed timestamp skips the record), `now` the
current time in seconds. -/
def get_failed_attempts (parse : String → Option Int) (now : Int)
    (records : List PasswordChangeRecord) (since_hours : Int) :
    List PasswordChangeRecord :=
  let cutoff := now - since_hours * 3600
  records.filter (fun r =>
    match parse r.timestamp with
    | some t => decide (cutoff < t) && !r.success
    | none => false)

/-! ## Session client (`SteamWebClient`) -/

/-- RSA key components returned by `_get_rsa_key`. -/
structure RsaKey where
  modulus : String
  exponent : String
  timestamp : String
deriving DecidableEq, Repr

/-- JSON body of the login response (absent fields are falsy in Python; we
model the two checked flags as booleans and `transfer_urls` as an optional
list). -/
structure LoginResponse where
  success : Bool
  login_complete : Bool
  transfer_urls : Option (List String)
  cookies : List (String × String)
deriving DecidableEq, Repr

/-- Network environment of one `login` call: the RSA key fetch result, the
result of the login POST (`Except.error` models a raised transport
exception), and the cookies obtained by the transfer GET inside
`_extract_session_data` (`Except.error` models a raised GET). -/
structure LoginEnv where
  rsaKey : Option RsaKey
  postResult : Except String LoginResponse
  transferGet : Except String (List (String × String))

/-- Mutable session state of `SteamWebClient`. -/
structure SessionState where
  login_cookies : List (String × String)
  session_id : Option String
  steam_id : Option Int
deriving DecidableEq, Repr

/-- Dictionary lookup over an association list where a later binding
shadows an earlier one, as in a Python dict built by repeated update. -/
def lookupCookie (cookies : List (String × String)) (k : String) : Option String :=
  (cookies.reverse.find? (fun p => p.1 == k)).map (fun p => p.2)

/-- `SteamWebClient._extract_session_data`: a raised transfer GET is
swallowed and leaves the state unchanged; otherwise the cookies are
merged, `session_id` is read from the `sessionid` cookie (possibly
absent), and `steam_id` is parsed best-effort from `steamLoginSecure`
(an unparsable value is swallowed and leaves `steam_id` empty). -/
def extract_session_data (st : SessionState)
    (transferGet : Except String (List (String × String))) : SessionState :=
  match transferGet with
  | Except.error _ => st
  | Except.ok fresh =>
    let cookies := st.login_cookies ++ fresh
    let sid := lookupCookie cookies "sessionid"
    let steamId :=
      match lookupCookie cookies "steamLoginSecure" with
      | some loginSecure =>
          if 2 ≤ (loginSecure.splitOn "%7C%7C").length then
            ((loginSecure.splitOn "%7C%7C").headD "").toInt?
          else none
      | none => none
  { login_cookies := cookies, session_id := sid, steam_id := steamId }

/-- `SteamWebClient.login`: fails when the RSA key fetch fails, when the
POST raises, or when the response flags are not both set; the
`transfer_urls` indexing raises on a present-but-empty list (caught by the
outer handler, turning the call into a failure); otherwise the session
data is extracted best-effort and the call succeeds regardless of whether
a session identifier was recovered. -/
def login (env : LoginEnv) : Bool × SessionState :=
  let st0 : SessionState := { login_cookies := [], session_id := none, steam_id := none }
  match env.rsaKey with
  | none => (false, st0)
  | some _ =>
    match env.postResult with
    | Except.error _ => (false, st0)
    | Except.ok result =>
      if result.success && result.login_complete then
        let st1 : SessionState := { st0 with login_cookies := result.cookies }
        match result.transfer_urls with
        | none => (true, st1)
        | some [] => (false, st1)
        | some (_ :: _) => (true, extract_session_data st1 env.transferGet)
      else (false, st0)

/-- Step results consumed by one `SteamPasswordChanger.change_password`
call: the generated one-time code (`Except.error` models the raised
`ValueError`), the boolean result of `client.login` and of
`client.change_password` (both swallow their own exceptions). -/
structure ChangerEnv where
  authCode : Except String String
  loginResult : Bool
  changeResult : Bool

/-- `SteamPasswordChanger.change_password`: any raised step is caught and
reported as `False`; a failed login short-circuits the change. -/
def changer_change_password (env : ChangerEnv) : Bool :=
  match env.authCode with
  | Except.error _ => false
  | Except.ok _ => if env.loginResult then env.changeResult else false

/-! ## Rotation engine (`SteamPasswordScheduler.change_password_job`) -/

/-- Notification section of the configuration. -/
structure NotificationConfig where
  enable_notifications : Bool
  notification_method : String
  notify_on_success : Bool
  notify_on_error : Bool
deriving DecidableEq, Repr

/-- `SteamPasswordScheduler.send_notification`: delivered messages (the
console method logs the message; a disabled flag or an unknown method
delivers nothing). -/
def send_notification (nc : NotificationConfig) (message : String) : List String :=
  if nc.enable_notifications then
    if nc.notification_method = "console" then ["УВЕДОМЛЕНИЕ: " ++ message]
    else []
  else []

/-- Result of the steps inside the `try` block of `change_password_job`:
either `change_password` returned a boolean, or some step raised (the
`beforeChanger` flag records whether the exception occurred before the
changer was invoked; `change_password` itself catches its own exceptions
and returns a boolean). -/
inductive AttemptOutcome where
  | completed (success : Bool)
  | raised (beforeChanger : Bool) (msg : String)
deriving DecidableEq, Repr

/-- Environment of one `change_password_job` run: the timestamp parser and
current time used by the failure-window query, the ISO text of the new
record timestamp, the freshly generated password and its reported
strength, the password fingerprint function (`hash_password`), the
attempt outcome, and whether the `save_config` file write succeeds. -/
structure JobEnv where
  parse : String → Option Int
  now : Int
  nowIso : String
  newPassword : String
  strength : String
  hash : String → String
  outcome : AttemptOutcome
  saveWriteOk : Bool

/-- Observable effects of one `change_password_job` run. -/
structure JobResult where
  invokedChanger : Bool
  appended : List PasswordChangeRecord
  notifications : List String
  configPassword : String
  configWriteDurable : Bool
  reportedSuccess : Bool
deriving DecidableEq, Repr

/-- Outcome of a cycle skipped by the failure-window circuit breaker: the
job only logs a warning and returns — no record, no notification, no
changer invocation, no configuration change. -/
def skipResult (oldPassword : String) : JobResult :=
  { invokedChanger := false, appended := [], notifications := [],
    configPassword := oldPassword, configWriteDurable := false, reportedSuccess := false }

/-- Failure record appended by `change_password_job`: the fixed placeholder
text when `change_password` merely returned `False`, the exception text
when a step raised. -/
def failRecord (oldPassword : String) (env : JobEnv) : PasswordChangeRecord :=
  match env.outcome with
  | AttemptOutcome.completed _ =>
      { timestamp := env.nowIso
        old_password_hash := env.hash oldPassword
        new_password_hash := env.hash env.newPassword
        success := false
        error_message := some "Неизвестная ошибка" }
  | AttemptOutcome.raised _ e =>
      { timestamp := env.nowIso
        old_password_hash := ""
        new_password_hash := ""
        success := false
        error_message := some e }

/-- `SteamPasswordScheduler.change_password_job`: breaker check over the
one-hour failure window, then password generation, the changer invocation,
the history append, and — only on success — the configuration update via
`save_config`, whose write failure is caught and only logged. -/
def change_password_job (nc : NotificationConfig) (oldPassword : String)
    (hist : List PasswordChangeRecord) (env : JobEnv) : JobResult :=
  if 3 ≤ (get_failed_attempts env.parse env.now hist 1).length then
    skipResult oldPassword
  else
    match env.outcome with
    | AttemptOutcome.completed success =>
      let record : PasswordChangeRecord :=
        { timestamp := env.nowIso
          old_password_hash := env.hash oldPassword
          new_password_hash := env.hash env.newPassword
          success := success
          error_message := if success then none else some "Неизвестная ошибка" }
      if success then
        { invokedChanger := true
          appended := [record]
          notifications :=
            if nc.notify_on_success then
              send_notification nc
                ("Пароль Steam успешно изменен на новый (сила: " ++ env.strength ++ ")")
            else []
          configPassword := env.newPassword
          configWriteDurable := env.saveWriteOk
          reportedSuccess := true }
      else
        { invokedChanger := true
          appended := [record]
          notifications :=
            if nc.notify_on_error then
              send_notification nc "ОШИБКА: Не удалось изменить пароль Steam"
            else []
          configPassword := oldPassword
          configWriteDurable := false
          reportedSuccess := false }
    | AttemptOutcome.raised beforeChanger e =>
      { invokedChanger := !beforeChanger
        appended := [{ timestamp := env.nowIso, old_password_hash := "",
                       new_password_hash := "", success := false, error_message := some e }]
        notifications :=
          if nc.notify_on_error then
            send_notification nc ("КРИТИЧЕСКАЯ ОШИБКА при смене пароля: " ++ e)
          else []
        configPassword := oldPassword
        configWriteDurable := false
        reportedSuccess := false }

/-- `SteamPasswordScheduler.force_password_change`: the forced trigger runs
`run_async_job(self.change_password_job)` — the same job, breaker included. -/
def force_password_change (nc : NotificationConfig) (oldPassword : String)
    (hist : List PasswordChangeRecord) (env : JobEnv) : JobResult :=
  change_password_job nc oldPassword hist env

/-- Scheduled trigger (`schedule.every(...).hours.do(lambda:
run_async_job(self.change_password_job))`): also the same job. -/
def scheduled_change (nc : NotificationConfig) (oldPassword : String)
    (hist : List PasswordChangeRecord) (env : JobEnv) : JobResult :=
  change_password_job nc oldPassword hist env

/-! ## Concrete sample inputs used by the closed theorems -/

/-- Default-style notification configuration (console, all flags on). -/
def nc0 : NotificationConfig :=
  { enable_notifications := true, notification_method := "console",
    notify_on_success := true, notify_on_error := true }

/-- Concrete timestamp parser giving time 10 to the text "T". -/
def parse0 : String → Option Int := fun s => if s = "T" then some 10 else none

/-- Concrete stand-in for `hash_password`. -/
def hash0 : String → String := fun s => "h" ++ s

/-- Failure record with the given timestamp text. -/
def mkFailRec (ts : String) : PasswordChangeRecord :=
  { timestamp := ts, old_password_hash := "", new_password_hash := "",
    success := false, error_message := some "e" }

/-- Sample records. -/
def sampleRecord : PasswordChangeRecord :=
  { timestamp := "2024-01-01T00:00:00", old_password_hash := "a1",
    new_password_hash := "b1", success := true, error_message := none }

def sampleRecord2 : PasswordChangeRecord :=
  { timestamp := "2024-01-02T00:00:00", old_password_hash := "a2",
    new_password_hash := "b2", success := false, error_message := some "x" }

def sampleRecord3 : PasswordChangeRecord :=
  { timestamp := "2024-01-03T00:00:00", old_password_hash := "a3",
    new_password_hash := "b3", success := true, error_message := none }

/-- History with three in-window failures (all parse to time 10 under
`parse0`). -/
def histC3 : List PasswordChangeRecord := [mkFailRec "T", mkFailRec "T", mkFailRec "T"]

/-- Job environment for the breaker scenario. -/
def envC3 : JobEnv :=
  { parse := parse0, now := 0, nowIso := "2024-01-01T00:00:00",
    newPassword := "newpw", strength := "strong", hash := hash0,
    outcome := AttemptOutcome.completed true, saveWriteOk := true }

/-- Job environment where the protocol succeeds but the configuration
write fails. -/
def envC1 : JobEnv :=
  { parse := fun _ => none, now := 0, nowIso := "2024-01-01T00:00:00",
    newPassword := "newpw", strength := "strong", hash := hash0,
    outcome := AttemptOutcome.completed true, saveWriteOk := false }

/-- Login environment whose POST raises a timeout. -/
def loginEnvTimeout : LoginEnv :=
  { rsaKey := some { modulus := "11", exponent := "01", timestamp := "ts" },
    postResult := Except.error "TimeoutError",
    transferGet := Except.ok [] }

/-- Changer step results for the timeout scenario: the code generates, the
login fails (its internal timeout is swallowed into `False`). -/
def changerEnvC5 : ChangerEnv :=
  { authCode := Except.ok "12345",
    loginResult := (login loginEnvTimeout).1,
    changeResult := true }

/-- Job environment for the timeout scenario. -/
def envC5 : JobEnv :=
  { parse := fun _ => none, now := 0, nowIso := "2024-01-01T00:00:00",
    newPassword := "newpw", strength := "strong", hash := hash0,
    outcome := AttemptOutcome.completed (changer_change_password changerEnvC5),
    saveWriteOk := true }

/-- Job environment where the protocol merely reports failure. -/
def envW5 : JobEnv :=
  { parse := fun _ => none, now := 0, nowIso := "2024-01-01T00:00:00",
    newPassword := "newpw", strength := "strong", hash := hash0,
    outcome := AttemptOutcome.completed false, saveWriteOk := true }

/-- Login response reporting success whose transfer round trip yields no
`sessionid` cookie. -/
def respC4 : LoginResponse :=
  { success := true, login_complete := true,
    transfer_urls := some ["https://x"], cookies := [] }

/-- Login environment for the missing-session-identifier scenario. -/
def envC4 : LoginEnv :=
  { rsaKey := some { modulus := "11", exponent := "01", timestamp := "ts" },
    postResult := Except.ok respC4,
    transferGet := Except.ok [] }

/-- Corrupt-content parser (every read raises inside the record parse). -/
def parseRecords0 : String → Except String (List PasswordChangeRecord) :=
  fun _ => Except.error "corrupt"

/-! ## Helper lemmas -/

theorem and255 (n : Nat) : n &&& 255 = n % 256 := by
  have h := Nat.and_pow_two_sub_one_eq_mod n 8
  norm_num at h
  exact h

theorem and15 (n : Nat) : n &&& 15 = n % 16 := by
  have h := Nat.and_pow_two_sub_one_eq_mod n 4
  norm_num at h
  exact h

theorem and31 (n : Nat) : n &&& 2147483647 = n % 2147483648 := by
  have h := Nat.and_pow_two_sub_one_eq_mod n 31
  norm_num at h
  exact h

theorem sha1_length (msg : List Nat) : (sha1 msg).length = 20 := by
  simp [sha1, sha1digest, be4]

theorem hmacSha1_length (key msg : List Nat) : (hmacSha1 key msg).length = 20 := by
  unfold hmacSha1
  exact sha1_length _

theorem getD_drop (l : List Nat) (i j : Nat) : (l.drop i).getD j 0 = l.getD (i + j) 0 := by
  simp [List.getD_eq_getElem?_getD, List.getElem?_drop]

theorem take_four_of_length (m : List Nat) (h : 4 ≤ m.length) :
    m.take 4 = [m.getD 0 0, m.getD 1 0, m.getD 2 0, m.getD 3 0] := by
  rcases m with _ | ⟨a, _ | ⟨b, _ | ⟨c, _ | ⟨d, t⟩⟩⟩⟩
  · simp at h
  · simp at h
  · simp at h
  · simp at h
  · rfl

theorem drop_take_four (l : List Nat) (o : Nat) (h : o + 4 ≤ l.length) :
    (l.drop o).take 4 = [l.getD o 0, l.getD (o + 1) 0, l.getD (o + 2) 0, l.getD (o + 3) 0] := by
  have h4 : 4 ≤ (l.drop o).length := by
    rw [List.length_drop]
    omega
  rw [take_four_of_length _ h4, getD_drop, getD_drop, getD_drop, getD_drop]
  norm_num

theorem getLast_eq_getD19 (l : List Nat) (h : l.length = 20) :
    l.getLast?.getD 0 = l.getD 19 0 := by
  rw [List.getLast?_eq_getElem?, h, List.getD_eq_getElem?_getD]

theorem generate_core_eq_spec (bs : List Nat) (t : Nat) :
    generate_core bs t = spec_code bs t := by
  have hctr : be8 (t / 30) = spec_counter_bytes t := by
    simp only [be8, spec_counter_bytes, Nat.shiftRight_eq_div_pow, and255]
  simp only [generate_core, spec_code, spec_truncate]
  rw [hctr]
  have hlen : (hmacSha1 bs (spec_counter_bytes t)).length = 20 := hmacSha1_length _ _
  rw [getLast_eq_getD19 _ hlen, and15]
  have ho : (hmacSha1 bs (spec_counter_bytes t)).getD 19 0 % 16 < 16 :=
    Nat.mod_lt _ (by norm_num)
  have h4 : (hmacSha1 bs (spec_counter_bytes t)).getD 19 0 % 16 + 4 ≤
      (hmacSha1 bs (spec_counter_bytes t)).length := by omega
  rw [drop_take_four _ _ h4]
  have hunp : ∀ a b c d : Nat,
      unpack_be4 [a, b, c, d] = a * 16777216 + b * 65536 + c * 256 + d := by
    intro a b c d
    simp [unpack_be4]
    ring
  rw [hunp, and31]

theorem takeLast_length_le {α : Type} (l : List α) (n : Nat) : (takeLast l n).length ≤ n := by
  unfold takeLast
  rw [List.length_drop]
  omega

theorem add_record_eq_takeLast (N : Nat) (hN : 1 ≤ N)
    (l : List PasswordChangeRecord) (r : PasswordChangeRecord) :
    add_record N l r = takeLast (l ++ [r]) N := by
  unfold add_record save_history trim_records takeLast
  by_cases h : N < (l ++ [r]).length
  · rw [if_pos h, if_neg (by omega : ¬ N = 0)]
  · rw [if_neg h]
    have h0 : (l ++ [r]).length - N = 0 := by omega
    rw [h0, List.drop_zero]

theorem takeLast_append_takeLast {α : Type} (n : Nat) (l s : List α) :
    takeLast (takeLast l n ++ s) n = takeLast (l ++ s) n := by
  unfold takeLast
  rcases Nat.le_total l.length n with h | h
  · have h0 : l.length - n = 0 := by omega
    rw [h0, List.drop_zero]
  · have hlen : (l.drop (l.length - n)).length = n := by
      rw [List.length_drop]
      omega
    rw [List.length_append, hlen, List.length_append]
    have h1 : n + s.length - n = s.length := by omega
    have h2 : l.length + s.length - n = l.length - n + s.length := by omega
    rw [h1, h2, ← List.drop_drop]
    congr 1
    rw [List.drop_append_eq_append_drop]
    have h3 : l.length - n - l.length = 0 := by omega
    rw [h3, List.drop_zero]

/-! ## Claim theorems -/

/-- C1 (counterexample): with the breaker quiet, the protocol reporting
success and the configuration write failing (`envC1.saveWriteOk = false`),
the job still reports success, appends the success record and emits the
success notification — the claim that success is reported only after a
durable store write is false on this code, because `save_config` swallows
its own write errors and the success outcome never consults them. -/
theorem C1_counterexample :
    (change_password_job nc0 "oldpw" [] envC1).reportedSuccess = true ∧
    (change_password_job nc0 "oldpw" [] envC1).appended =
      [{ timestamp := "2024-01-01T00:00:00", old_password_hash := "holdpw",
         new_password_hash := "hnewpw", success := true, error_message := none }] ∧
    (change_password_job nc0 "oldpw" [] envC1).notifications =
      ["УВЕДОМЛЕНИЕ: Пароль Steam успешно изменен на новый (сила: strong)"] ∧
    (change_password_job nc0 "oldpw" [] envC1).configWriteDurable = false := by
  decide

/-- C1 (amended): when the password-change protocol reports success, the
engine reports success, appends the success record and (configuration
permitting) emits the success notification regardless of whether the
credential-store write was durable — the write outcome only shows up in
the durability flag, never in the reported status. -/
theorem C1_success_independent_of_write (nc : NotificationConfig) (oldPassword : String)
    (hist : List PasswordChangeRecord) (env : JobEnv)
    (hbrk : ¬ 3 ≤ (get_failed_attempts env.parse env.now hist 1).length)
    (hout : env.outcome = AttemptOutcome.completed true) :
    (change_password_job nc oldPassword hist env).reportedSuccess = true ∧
    (change_password_job nc oldPassword hist env).configWriteDurable = env.saveWriteOk ∧
    (change_password_job nc oldPassword hist env).appended =
      [{ timestamp := env.nowIso, old_password_hash := env.hash oldPassword,
         new_password_hash := env.hash env.newPassword, success := true,
         error_message := none }] := by
  unfold change_password_job
  rw [if_neg hbrk, hout]
  exact ⟨rfl, rfl, rfl⟩

/-- C1 (witness): the amended statement applied to the concrete
environment whose configuration write fails. -/
theorem C1_witness :
    (¬ 3 ≤ (get_failed_attempts envC1.parse envC1.now ([] : List PasswordChangeRecord) 1).length) ∧
    envC1.outcome = AttemptOutcome.completed true ∧
    ((change_password_job nc0 "oldpw" [] envC1).reportedSuccess = true ∧
     (change_password_job nc0 "oldpw" [] envC1).configWriteDurable = envC1.saveWriteOk ∧
     (change_password_job nc0 "oldpw" [] envC1).appended =
       [{ timestamp := envC1.nowIso, old_password_hash := envC1.hash "oldpw",
          new_password_hash := envC1.hash envC1.newPassword, success := true,
          error_message := none }]) :=
  ⟨by decide, rfl, C1_success_independent_of_write nc0 "oldpw" [] envC1 (by decide) rfl⟩

set_option maxRecDepth 10000

/-- C2 (code bug): for the valid secret `"AAAAAAAAAAAAAAAAAAAAAAAAAAA="`
(twenty zero bytes) at timestamp 0, the generator returns the six-digit
string `"328482"`: `f"{n:05d}"` pads to at least five digits but does not
cap the width, and the reduced value ranges up to 999999, contradicting
the documented claim (and the function docstring) of exactly five digits. -/
theorem C2_six_digit_code :
    generate_auth_code "AAAAAAAAAAAAAAAAAAAAAAAAAAA=" 0 = Except.ok "328482" ∧
    "328482".length ≠ 5 ∧
    b64decode "AAAAAAAAAAAAAAAAAAAAAAAAAAA=" = some (List.replicate 20 0) :=
  ⟨rfl, by decide, by decide⟩

set_option maxRecDepth 512

/-- C3: with at least three failures inside the trailing one-hour window,
both the forced trigger and the scheduled trigger — which run the same
`change_password_job` — return the skip outcome: no changer invocation,
no record, no notification, no configuration change.  The skip outcome is
a constant independent of every attempt-related input, so no password is
generated and no network step is reached. -/
theorem C3_breaker_skips_both_paths (nc : NotificationConfig) (oldPassword : String)
    (hist : List PasswordChangeRecord) (env : JobEnv)
    (h : 3 ≤ (get_failed_attempts env.parse env.now hist 1).length) :
    force_password_change nc oldPassword hist env = skipResult oldPassword ∧
    scheduled_change nc oldPassword hist env = skipResult oldPassword := by
  unfold force_password_change scheduled_change change_password_job
  rw [if_pos h]
  exact ⟨rfl, rfl⟩

/-- C3 (witness): three concrete in-window failures trip the breaker on
both paths. -/
theorem C3_witness :
    3 ≤ (get_failed_attempts envC3.parse envC3.now histC3 1).length ∧
    (force_password_change nc0 "oldpw" histC3 envC3 = skipResult "oldpw" ∧
     scheduled_change nc0 "oldpw" histC3 envC3 = skipResult "oldpw") :=
  ⟨by decide, C3_breaker_skips_both_paths nc0 "oldpw" histC3 envC3 (by decide)⟩

/-- C4 (counterexample): the server reports success and login completion,
the transfer round trip yields no `sessionid` cookie, and `login` still
returns `True` with an empty session identifier — the claim that login
reports failure when the identifier cannot be recovered is false on this
code. -/
theorem C4_counterexample :
    respC4.success = true ∧ respC4.login_complete = true ∧
    (login envC4).1 = true ∧ (login envC4).2.session_id = none := by
  decide

/-- C4 (amended): whenever the RSA key fetch succeeded, the login POST
returned without raising, the response reports success and completion, and
the `transfer_urls` indexing does not raise (the list, when present, is
nonempty), `login` returns `True` — the session identifier is extracted
best-effort and never consulted for the return value. -/
theorem C4_login_ignores_session_id (env : LoginEnv) (k : RsaKey) (resp : LoginResponse)
    (hk : env.rsaKey = some k) (hp : env.postResult = Except.ok resp)
    (hs : resp.success = true) (hc : resp.login_complete = true)
    (ht : resp.transfer_urls ≠ some ([] : List String)) :
    (login env).1 = true := by
  cases hturl : resp.transfer_urls with
  | none => simp [login, hk, hp, hs, hc, hturl]
  | some l =>
    cases l with
    | nil => exact absurd hturl ht
    | cons u us => simp [login, hk, hp, hs, hc, hturl]

/-- C4 (witness): the amended statement applied to the concrete
environment of the counterexample. -/
theorem C4_witness :
    envC4.rsaKey = some { modulus := "11", exponent := "01", timestamp := "ts" } ∧
    envC4.postResult = Except.ok respC4 ∧
    respC4.success = true ∧ respC4.login_complete = true ∧
    respC4.transfer_urls ≠ some ([] : List String) ∧
    (login envC4).1 = true :=
  ⟨rfl, rfl, rfl, rfl, by decide,
    C4_login_ignores_session_id envC4
      { modulus := "11", exponent := "01", timestamp := "ts" } respC4 rfl rfl rfl rfl
      (by decide)⟩

/-- C5 (counterexample): the login POST raises a timeout, `client.login`
swallows it into `False`, the changer reports `False`, and the appended
failure record carries the fixed placeholder text "Неизвестная ошибка" —
not the captured timeout reason — so the claim that the failure record
carries the captured failure reason is false on this code (the stored
credential is indeed left unchanged). -/
theorem C5_counterexample :
    loginEnvTimeout.postResult = Except.error "TimeoutError" ∧
    (login loginEnvTimeout).1 = false ∧
    (change_password_job nc0 "oldpw" [] envC5).appended =
      [{ timestamp := "2024-01-01T00:00:00", old_password_hash := "holdpw",
         new_password_hash := "hnewpw", success := false,
         error_message := some "Неизвестная ошибка" }] ∧
    (change_password_job nc0 "oldpw" [] envC5).configPassword = "oldpw" ∧
    some "Неизвестная ошибка" ≠ some "TimeoutError" :=
  ⟨rfl, rfl, by decide, by decide, by decide⟩

/-- C5 (amended): every failing attempt (protocol returned `False`, or a
step raised) appends exactly one failure record and leaves the stored
credential unchanged; the error description is the exception text when a
step raised, but the fixed placeholder "Неизвестная ошибка" — not the
underlying captured reason — when the protocol merely returned `False`. -/
theorem C5_failure_effects (nc : NotificationConfig) (oldPassword : String)
    (hist : List PasswordChangeRecord) (env : JobEnv)
    (hbrk : ¬ 3 ≤ (get_failed_attempts env.parse env.now hist 1).length)
    (hfail : env.outcome ≠ AttemptOutcome.completed true) :
    (change_password_job nc oldPassword hist env).reportedSuccess = false ∧
    (change_password_job nc oldPassword hist env).configPassword = oldPassword ∧
    (change_password_job nc oldPassword hist env).appended = [failRecord oldPassword env] ∧
    (failRecord oldPassword env).success = false := by
  unfold change_password_job failRecord
  rw [if_neg hbrk]
  cases h : env.outcome with
  | completed b =>
    cases b with
    | true => exact absurd h hfail
    | false => exact ⟨rfl, rfl, rfl, rfl⟩
  | raised bc e => exact ⟨rfl, rfl, rfl, rfl⟩

/-- C5 (witness): the amended statement applied to the concrete
environment whose protocol reports failure. -/
theorem C5_witness :
    (¬ 3 ≤ (get_failed_attempts envW5.parse envW5.now ([] : List PasswordChangeRecord) 1).length) ∧
    envW5.outcome ≠ AttemptOutcome.completed true ∧
    ((change_password_job nc0 "oldpw" [] envW5).reportedSuccess = false ∧
     (change_password_job nc0 "oldpw" [] envW5).configPassword = "oldpw" ∧
     (change_password_job nc0 "oldpw" [] envW5).appended = [failRecord "oldpw" envW5] ∧
     (failRecord "oldpw" envW5).success = false) :=
  ⟨by decide, by decide, C5_failure_effects nc0 "oldpw" [] envW5 (by decide) (by decide)⟩

/-- C6 (counterexample): with retention bound 0 the Python slice
`records[-0:]` is the whole list, so one append leaves one record and the
persisted history is not bounded by the retention bound — the claim fails
at `N = 0`. -/
theorem C6_counterexample_zero_bound :
    add_record 0 [] sampleRecord = [sampleRecord] ∧
    ¬ ((add_record 0 [] sampleRecord).length ≤ 0) := by
  decide

/-- C6 (amended): for every positive retention bound `N`, any starting
state and any nonempty sequence of appends, the persisted history is
exactly the trailing `N` records of the full append sequence (so at most
`N` records, the oldest dropped first, append order preserved); for
`N = 0` the trim is a no-op because the Python slice `[-0:]` keeps the
whole list. -/
theorem C6_retention_bound (N : Nat) (hN : 1 ≤ N) (start : List PasswordChangeRecord)
    (r : PasswordChangeRecord) (rs : List PasswordChangeRecord) :
    (r :: rs).foldl (add_record N) start = takeLast (start ++ r :: rs) N ∧
    ((r :: rs).foldl (add_record N) start).length ≤ N := by
  suffices h : (r :: rs).foldl (add_record N) start = takeLast (start ++ r :: rs) N by
    refine ⟨h, ?_⟩
    rw [h]
    exact takeLast_length_le _ _
  induction rs generalizing start r with
  | nil =>
    simp only [List.foldl]
    exact add_record_eq_takeLast N hN start r
  | cons r2 rs ih =>
    have step : (r :: r2 :: rs).foldl (add_record N) start =
        (r2 :: rs).foldl (add_record N) (add_record N start r) := rfl
    rw [step, ih (add_record N start r) r2, add_record_eq_takeLast N hN start r,
      takeLast_append_takeLast]
    congr 1
    rw [List.append_assoc, List.singleton_append]

/-- C6 (witness): three appends against bound 2 keep exactly the last two
records. -/
theorem C6_witness :
    1 ≤ 2 ∧
    ((sampleRecord :: [sampleRecord2, sampleRecord3]).foldl (add_record 2) [] =
       takeLast ([] ++ sampleRecord :: [sampleRecord2, sampleRecord3]) 2 ∧
     ((sampleRecord :: [sampleRecord2, sampleRecord3]).foldl (add_record 2) []).length ≤ 2) :=
  ⟨by decide, C6_retention_bound 2 (by decide) [] sampleRecord [sampleRecord2, sampleRecord3]⟩

/-- C7: a persisted store whose read raises or whose content fails to
parse into records loads as the empty history, and the window query and
last-success query on that history behave as if nothing had ever been
appended. -/
theorem C7_corrupt_store_empty_history (readResult : Except String String)
    (parseRecords : String → Except String (List PasswordChangeRecord))
    (parse : String → Option Int) (now w : Int)
    (h : (∃ m, readResult = Except.error m) ∨
         (∃ c e, readResult = Except.ok c ∧ parseRecords c = Except.error e)) :
    load_history true readResult parseRecords = [] ∧
    get_failed_attempts parse now (load_history true readResult parseRecords) w = [] ∧
    get_last_change (load_history true readResult parseRecords) = none := by
  have hload : load_history true readResult parseRecords = [] := by
    rcases h with ⟨m, rfl⟩ | ⟨c, e, rfl, hpe⟩
    · rfl
    · simp [load_history, hpe]
  rw [hload]
  exact ⟨rfl, rfl, rfl⟩

/-- C7 (witness): a concrete unreadable store loads as empty. -/
theorem C7_witness :
    ((∃ m, (Except.error "io" : Except String String) = Except.error m) ∨
     (∃ c e, (Except.error "io" : Except String String) = Except.ok c ∧
        parseRecords0 c = Except.error e)) ∧
    (load_history true (Except.error "io") parseRecords0 = [] ∧
     get_failed_attempts parse0 0 (load_history true (Except.error "io") parseRecords0) 24 = [] ∧
     get_last_change (load_history true (Except.error "io") parseRecords0) = none) :=
  ⟨Or.inl ⟨"io", rfl⟩,
    C7_corrupt_store_empty_history (Except.error "io") parseRecords0 parse0 0 24
      (Or.inl ⟨"io", rfl⟩)⟩

/-- C8: the generated code depends on the timestamp only through
`floor(timestamp / 30)`: for every secret text and timestamp,
`generate(secret, t)` equals `generate(secret, t - t % 30)` (for a valid
secret both compute the same code; for an invalid one both raise the same
error). -/
theorem C8_thirty_second_window (s : String) (t : Nat) :
    generate_auth_code s t = generate_auth_code s (t - t % 30) := by
  unfold generate_auth_code
  cases b64decode s with
  | none => rfl
  | some bs =>
    simp only [generate_core]
    have h : (t - t % 30) / 30 = t / 30 := by omega
    rw [h]

/-- C9: the generator implements exactly the specified steps — the 8-byte
big-endian counter of `floor(t/30)`, HMAC-SHA1 over the decoded secret,
dynamic truncation at the offset given by the low 4 bits of the last
digest byte, the sign-bit mask, reduction modulo 1 000 000, and zero
padding to at least 5 digits — and raises the typed invalid-secret error
exactly when base64 decoding of the secret fails.  The right-hand side is
assembled from `spec_code`, which is written from the specified steps. -/
theorem C9_algorithm_refinement (s : String) (t : Nat) :
    generate_auth_code s t =
      (match b64decode s with
       | some secret => Except.ok (spec_code secret t)
       | none => Except.error "Неверный формат shared_secret") := by
  unfold generate_auth_code
  cases b64decode s with
  | none => rfl
  | some bs => exact congrArg Except.ok (generate_core_eq_spec bs t)

/-- C10: membership in the recent-failures query is exactly: the record is
in the history, its success flag is false, and its timestamp parses and
lies strictly inside the trailing window; in particular a record whose
timestamp fails to parse is never returned and never counts toward the
circuit-breaker threshold. -/
theorem C10_recent_failures_characterisation (parse : String → Option Int) (now : Int)
    (records : List PasswordChangeRecord) (w : Int) (r : PasswordChangeRecord) :
    r ∈ get_failed_attempts parse now records w ↔
      r ∈ records ∧ r.success = false ∧
        ∃ t, parse r.timestamp = some t ∧ now - w * 3600 < t := by
  unfold get_failed_attempts
  rw [List.mem_filter]
  cases h : parse r.timestamp with
  | none => simp [h]
  | some t =>
    simp only [h, Bool.and_eq_true, decide_eq_true_eq, Bool.not_eq_true']
    constructor
    · rintro ⟨hm, hlt, hs⟩
      exact ⟨hm, hs, t, rfl, hlt⟩
    · rintro ⟨hm, hs, t2, ht2, hlt⟩
      cases Option.some.inj ht2
      exact ⟨hm, hlt, hs⟩
